import Mathlib

/-!
Shallow embedding of the IoT sensor network engine
(`backend/climate_iot/iot_sensors.py`, class `IoTSensorManager`).

Modelling conventions:
* Python `float` values and timestamps are embedded as `ℚ`; time is measured
  in hours, so `timedelta(hours=h)` is subtraction of `h`.
* `datetime.now()` is an ambient input: every operation that reads the clock
  takes an explicit `now : ℚ` parameter.
* Python exceptions are the `Except String` error channel; functions that can
  raise return `Except String α`.  `ZeroDivisionError` inside the comfort-score
  computation is embedded as `Option` (`none` = the Python call raises).
* Alert callbacks are embedded as possibly-failing observers
  `Alert → Except String Unit`; the engine invokes them and discards the
  outcome, mirroring the `try: callback(alert) except Exception: pass` loop.
* Python dicts keyed by sensor id / sensor type are association lists in
  insertion order, with in-place overwrite on key collision.
* The human-readable alert message concatenates the same components as the
  Python f-string; numeric formatting of `ℚ` stands in for `float` formatting.
-/

/- Lean core marks `Rat` arithmetic irreducible; restore reducibility so
that concrete runs of the embedded engine can be checked by `decide`. -/
set_option allowUnsafeReducibility true
attribute [semireducible] Rat.mul Rat.add Rat.sub Rat.div Rat.neg Rat.inv
attribute [semireducible] Rat.ofScientific Rat.floor Rat.ceil

namespace IoT

/-- The `SensorType` enumeration (15 sensor categories). -/
inductive SensorType where
  | temperature | humidity | airQuality | co2 | voc | particulate
  | noise | light | motion | doorWindow | waterLeak | smoke | gas
  | radon | electricity
  deriving DecidableEq, Repr, Fintype

/-- `SensorType.value` : the string payload of each Python enum member. -/
def SensorType.value : SensorType → String
  | .temperature => "Temperature"
  | .humidity => "Humidity"
  | .airQuality => "Air Quality (AQI)"
  | .co2 => "CO2"
  | .voc => "Volatile Organic Compounds"
  | .particulate => "Particulate Matter (PM2.5/PM10)"
  | .noise => "Noise Level"
  | .light => "Light Intensity"
  | .motion => "Motion"
  | .doorWindow => "Door/Window Contact"
  | .waterLeak => "Water Leak"
  | .smoke => "Smoke"
  | .gas => "Gas Leak"
  | .radon => "Radon"
  | .electricity => "Electricity Usage"

/-- The `AlertSeverity` enumeration. -/
inductive AlertSeverity where
  | info | warning | critical | emergency
  deriving DecidableEq, Repr

/-- Rank of a severity in the order Info < Warning < Critical < Emergency,
used to state monotonicity. -/
def AlertSeverity.rank : AlertSeverity → Nat
  | .info => 0
  | .warning => 1
  | .critical => 2
  | .emergency => 3

/-- One entry of the class-level `SENSOR_CONFIG` table. -/
structure SensorConfig where
  unit : String
  min_threshold : ℚ
  max_threshold : ℚ
  optimal_min : ℚ
  optimal_max : ℚ
  deriving DecidableEq, Repr

/-- `IoTSensorManager.SENSOR_CONFIG`: per-category units and thresholds.
Categories absent from the Python dict map to `none`. -/
def SENSOR_CONFIG : SensorType → Option SensorConfig
  | .temperature => some ⟨"°C", 10, 35, 20, 26⟩
  | .humidity => some ⟨"%", 20, 80, 40, 60⟩
  | .airQuality => some ⟨"AQI", 0, 150, 0, 50⟩
  | .co2 => some ⟨"ppm", 400, 1000, 400, 600⟩
  | .voc => some ⟨"ppb", 0, 500, 0, 100⟩
  | .particulate => some ⟨"μg/m³", 0, 60, 0, 12⟩
  | .noise => some ⟨"dB", 0, 70, 0, 45⟩
  | .light => some ⟨"lux", 0, 10000, 300, 500⟩
  | .electricity => some ⟨"kWh", 0, 1000, 0, 30⟩
  | _ => none

/-- The per-field fallbacks the Python code applies with `config.get(key,
default)`: `min_threshold → 0`, `max_threshold → 100`, `optimal_min → 20`,
`optimal_max → 80`, `unit → ""`.  These defaults are identical at every call
site, so missing categories behave as this single record. -/
def configOf (t : SensorType) : SensorConfig :=
  (SENSOR_CONFIG t).getD ⟨"", 0, 100, 20, 80⟩

/-- The `Sensor` dataclass; the `thresholds` dict is flattened into four
fields (keys `min`, `max`, `optimal_min`, `optimal_max`). -/
structure Sensor where
  sensor_id : String
  sensor_type : SensorType
  location : String
  room : String
  status : String
  battery_level : Int
  last_reading : ℚ
  last_reading_time : ℚ
  calibration_date : ℚ
  thresholds_min : ℚ
  thresholds_max : ℚ
  thresholds_optimal_min : ℚ
  thresholds_optimal_max : ℚ
  deriving DecidableEq, Repr

/-- The `SensorReading` dataclass. -/
structure SensorReading where
  reading_id : String
  sensor_id : String
  sensor_type : SensorType
  value : ℚ
  unit : String
  timestamp : ℚ
  quality : String
  triggered_alert : Bool
  deriving DecidableEq, Repr

/-- The `Alert` dataclass. -/
structure Alert where
  alert_id : String
  sensor_id : String
  severity : AlertSeverity
  message : String
  value : ℚ
  threshold : ℚ
  timestamp : ℚ
  acknowledged : Bool
  resolved : Bool
  resolution_time : Option ℚ
  deriving DecidableEq, Repr

/-- One row of the `get_sensor_history` result (the dict
`{value, timestamp, quality}` built per reading). -/
structure HistoryEntry where
  value : ℚ
  timestamp : ℚ
  quality : String
  deriving DecidableEq, Repr

/-- The mutable state of an `IoTSensorManager` instance. `sensors` is the
insertion-ordered `Dict[str, Sensor]`. -/
structure ManagerState where
  property_id : String
  sensors : List Sensor
  readings : List SensorReading
  alerts : List Alert
  alert_callbacks : List (Alert → Except String Unit)
  reading_counter : Nat
  alert_counter : Nat

/-- `IoTSensorManager.__init__`. -/
def initManager (property_id : String) : ManagerState :=
  { property_id := property_id, sensors := [], readings := [], alerts := []
    alert_callbacks := [], reading_counter := 0, alert_counter := 0 }

/-- Zero-padding for the Python format specs `04d`, `08d`, `06d`. -/
def padZeros (width : Nat) (n : Nat) : String :=
  let s := toString n
  String.mk (List.replicate (width - s.length) '0') ++ s

/-- `register_sensor`: allocate `S-XXXX`, copy category defaults into the
thresholds dict, status Online, battery 100. -/
def register_sensor (st : ManagerState) (sensor_type : SensorType)
    (location room : String) (now : ℚ) : Sensor × ManagerState :=
  let sensor_id := "S-" ++ padZeros 4 (st.sensors.length + 1)
  let config := configOf sensor_type
  let sensor : Sensor :=
    { sensor_id := sensor_id, sensor_type := sensor_type
      location := location, room := room, status := "Online"
      battery_level := 100, last_reading := 0, last_reading_time := now
      calibration_date := now
      thresholds_min := config.min_threshold
      thresholds_max := config.max_threshold
      thresholds_optimal_min := config.optimal_min
      thresholds_optimal_max := config.optimal_max }
  (sensor, { st with sensors := st.sensors ++ [sensor] })

/-- `_assess_reading_quality`: Good / Fair / Poor from the optimal band. -/
def assess_reading_quality (value : ℚ) (sensor_type : SensorType) : String :=
  let config := configOf sensor_type
  let optimal_min := config.optimal_min
  let optimal_max := config.optimal_max
  if optimal_min ≤ value ∧ value ≤ optimal_max then "Good"
  else if value < optimal_min * 0.8 ∨ value > optimal_max * 1.2 then "Poor"
  else "Fair"

/-- `_check_thresholds`: breach iff outside the sensor's `[min, max]` band. -/
def check_thresholds (sensor : Sensor) (value : ℚ) : Bool :=
  value < sensor.thresholds_min ∨ value > sensor.thresholds_max

/-- The severity computation inlined in `_generate_alert`. -/
def severity_of (sensor : Sensor) (value : ℚ) : AlertSeverity :=
  if value > sensor.thresholds_max * 1.5 ∨ value < sensor.thresholds_min * 0.5 then
    .critical
  else if value > sensor.thresholds_max * 1.2 ∨ value < sensor.thresholds_min * 0.8 then
    .warning
  else .info

/-- The `for callback in self.alert_callbacks: try ... except: pass` loop:
each listener is applied once, in order, and its outcome is discarded. -/
def runCallbacks (cbs : List (Alert → Except String Unit)) (alert : Alert) : Unit :=
  cbs.foldl (fun _ cb => match cb alert with | .ok _ => () | .error _ => ()) ()

/-- `_generate_alert`: allocate `A-XXXXXX`, classify severity, append the
alert, notify callbacks (failures swallowed). -/
def generate_alert (st : ManagerState) (sensor : Sensor) (value : ℚ)
    (now : ℚ) : ManagerState :=
  let alert_counter := st.alert_counter + 1
  let alert_id := "A-" ++ padZeros 6 alert_counter
  let config := configOf sensor.sensor_type
  let threshold :=
    if value > sensor.thresholds_max then sensor.thresholds_max
    else sensor.thresholds_min
  let severity := severity_of sensor value
  let tyval := sensor.sensor_type.value
  let room := sensor.room
  let vs := toString value
  let us := config.unit
  let ts := toString threshold
  let message := tyval ++ " in " ++ room ++ ": " ++ vs ++ us ++
    " (Threshold: " ++ ts ++ ")"
  let alert : Alert :=
    { alert_id := alert_id, sensor_id := sensor.sensor_id
      severity := severity, message := message, value := value
      threshold := threshold, timestamp := now
      acknowledged := false, resolved := false, resolution_time := none }
  let _notified := runCallbacks st.alert_callbacks alert
  { st with alerts := st.alerts ++ [alert], alert_counter := alert_counter }

/-- `ingest_reading`: resolve the sensor (raising when unknown), classify
quality, evaluate thresholds, update sensor state, append the reading, and
generate an alert when breaching.  `timestamp?` is the optional `timestamp`
argument (`none` = defaulted to `now`). -/
def ingest_reading (st : ManagerState) (sensor_id : String) (value : ℚ)
    (timestamp? : Option ℚ) (now : ℚ) :
    Except String (SensorReading × ManagerState) :=
  match st.sensors.find? (fun s => s.sensor_id == sensor_id) with
  | none => .error ("Sensor " ++ sensor_id ++ " not found")
  | some sensor =>
    let config := configOf sensor.sensor_type
    let timestamp := timestamp?.getD now
    let reading_counter := st.reading_counter + 1
    let reading_id := "R-" ++ padZeros 8 reading_counter
    let quality := assess_reading_quality value sensor.sensor_type
    let triggered_alert := check_thresholds sensor value
    let reading : SensorReading :=
      { reading_id := reading_id, sensor_id := sensor_id
        sensor_type := sensor.sensor_type, value := value
        unit := config.unit, timestamp := timestamp
        quality := quality, triggered_alert := triggered_alert }
    let sensor' := { sensor with
      last_reading := value, last_reading_time := timestamp }
    let st' := { st with
      sensors := st.sensors.map
        (fun s => if s.sensor_id == sensor_id then sensor' else s)
      readings := st.readings ++ [reading]
      reading_counter := reading_counter }
    let st'' := if triggered_alert then generate_alert st' sensor' value now else st'
    .ok (reading, st'')

/-- `get_sensor_history`: filter the log by sensor id and
`timestamp > now - hours`, in log order.  The Python body has no raise path,
so the error channel is never used; the `Except` wrapper only records that
callers reach it through the same exception-capable interface as `ingest`. -/
def get_sensor_history (st : ManagerState) (sensor_id : String)
    (hours : ℚ) (now : ℚ) : Except String (List HistoryEntry) :=
  let cutoff := now - hours
  .ok ((st.readings.filter
      (fun r => r.sensor_id == sensor_id && r.timestamp > cutoff)).map
    (fun r => ⟨r.value, r.timestamp, r.quality⟩))

/-- The `for alert in self.alerts` loop of `acknowledge_alert`: set
`acknowledged := true` on the first alert with the given id, `none` when no
alert matches. -/
def ackFirst : List Alert → String → Option (List Alert)
  | [], _ => none
  | a :: rest, alert_id =>
    if a.alert_id == alert_id then some ({ a with acknowledged := true } :: rest)
    else (ackFirst rest alert_id).map (a :: ·)

/-- `acknowledge_alert`. -/
def acknowledge_alert (st : ManagerState) (alert_id : String) :
    Bool × ManagerState :=
  match ackFirst st.alerts alert_id with
  | some alerts => (true, { st with alerts := alerts })
  | none => (false, st)

/-- The `for alert in self.alerts` loop of `resolve_alert`: set
`resolved := true` and `resolution_time := now` on the first match. -/
def resolveFirst : List Alert → String → ℚ → Option (List Alert)
  | [], _, _ => none
  | a :: rest, alert_id, now =>
    if a.alert_id == alert_id then
      some ({ a with resolved := true, resolution_time := some now } :: rest)
    else (resolveFirst rest alert_id now).map (a :: ·)

/-- `resolve_alert`. -/
def resolve_alert (st : ManagerState) (alert_id : String) (now : ℚ) :
    Bool × ManagerState :=
  match resolveFirst st.alerts alert_id now with
  | some alerts => (true, { st with alerts := alerts })
  | none => (false, st)

/-- `_calculate_sensor_score`.  Each Python division is checked: `none`
embeds the `ZeroDivisionError` the interpreter raises when the divisor is
zero (in the below-range branch this happens exactly when
`optimal_min = 0`). -/
def calculate_sensor_score (sensor : Sensor) : Option ℚ :=
  let config := configOf sensor.sensor_type
  let optimal_min := config.optimal_min
  let optimal_max := config.optimal_max
  let value := sensor.last_reading
  if optimal_min ≤ value ∧ value ≤ optimal_max then
    let mid := (optimal_min + optimal_max) / 2
    if optimal_max - mid = 0 then none
    else
      let distance := |value - mid| / (optimal_max - mid)
      some (100 - distance * 20)
  else if value < optimal_min then
    if optimal_min = 0 then none
    else some (max 0 (80 - (optimal_min - value) / optimal_min * 50))
  else
    if optimal_max = 0 then none
    else some (max 0 (80 - (value - optimal_max) / optimal_max * 50))

/-- The `weights` dict of `calculate_comfort_score`, in insertion order. -/
def weights : List (SensorType × ℚ) :=
  [(.temperature, 0.25), (.humidity, 0.20), (.airQuality, 0.25),
   (.co2, 0.15), (.noise, 0.10), (.light, 0.05)]

/-- Dict assignment `scores[key] = v`: overwrite in place, else append. -/
def upsert : List (SensorType × ℚ) → SensorType → ℚ → List (SensorType × ℚ)
  | [], t, v => [(t, v)]
  | (t', v') :: rest, t, v =>
    if t' = t then (t, v) :: rest else (t', v') :: upsert rest t v

/-- The `for sensor in self.sensors.values()` loop of
`calculate_comfort_score`: score every sensor whose category is weighted,
keyed by category (the Python dict keys by `sensor_type.value`, which is
injective).  `none` when any scored sensor raises `ZeroDivisionError`. -/
def collect_scores : List Sensor → List (SensorType × ℚ) →
    Option (List (SensorType × ℚ))
  | [], acc => some acc
  | s :: rest, acc =>
    if (weights.lookup s.sensor_type).isSome then
      match calculate_sensor_score s with
      | none => none
      | some sc => collect_scores rest (upsert acc s.sensor_type sc)
    else collect_scores rest acc

/-- The weighted-average accumulation over `weights.items()`. -/
def weighted_totals (scores : List (SensorType × ℚ)) : ℚ × ℚ :=
  weights.foldl
    (fun acc tw =>
      match scores.lookup tw.1 with
      | some sc => (acc.1 + sc * tw.2, acc.2 + tw.2)
      | none => acc)
    (0, 0)

/-- Python `round(x, 1)`.  Mathlib's `round` resolves exact ties upward
where Python uses banker's rounding; no claim exercises a tie. -/
def round1 (x : ℚ) : ℚ := (round (x * 10) : ℤ) / 10

/-- `_score_to_category`. -/
def score_to_category (score : ℚ) : String :=
  if score ≥ 90 then "Excellent"
  else if score ≥ 75 then "Good"
  else if score ≥ 60 then "Fair"
  else if score ≥ 40 then "Poor"
  else "Critical"

/-- `_generate_comfort_recommendations`. -/
def generate_comfort_recommendations (scores : List (SensorType × ℚ)) :
    List String :=
  let low := fun (t : SensorType) => (scores.lookup t).getD 100 < 70
  let recommendations :=
    (if low .temperature then ["Adjust HVAC temperature settings"] else []) ++
    (if low .humidity then ["Consider using humidifier/dehumidifier"] else []) ++
    (if low .airQuality then ["Improve ventilation or use air purifier"] else []) ++
    (if low .co2 then ["Increase fresh air intake"] else []) ++
    (if low .noise then ["Investigate noise sources"] else [])
  if recommendations = [] then ["All parameters within optimal range"]
  else recommendations

/-- The result dict of `calculate_comfort_score`. -/
structure ComfortResult where
  overall_score : ℚ
  category : String
  component_scores : List (SensorType × ℚ)
  recommendations : List String
  deriving DecidableEq, Repr

/-- `calculate_comfort_score`: per-sensor scores, weighted average
(normalised by the weights actually present, 50 when none), rounded overall
score, category label and recommendations.  `none` embeds the
`ZeroDivisionError` escaping the Python call. -/
def calculate_comfort_score (st : ManagerState) : Option ComfortResult :=
  match collect_scores st.sensors [] with
  | none => none
  | some scores =>
    let totals := weighted_totals scores
    let overall := if totals.2 > 0 then totals.1 / totals.2 else 50
    some { overall_score := round1 overall
           category := score_to_category overall
           component_scores := scores
           recommendations := generate_comfort_recommendations scores }

/-! ### Facts about the configuration table and shared concrete states -/

/-- Every category's effective configuration (table entry or defaults) has
`0 ≤ min ≤ max`, `0 < max`, `0 ≤ optimal_min < optimal_max`. -/
theorem configOf_bounds (t : SensorType) :
    0 ≤ (configOf t).min_threshold ∧
    (configOf t).min_threshold ≤ (configOf t).max_threshold ∧
    0 < (configOf t).max_threshold ∧
    0 ≤ (configOf t).optimal_min ∧
    (configOf t).optimal_min < (configOf t).optimal_max := by
  cases t <;> decide

/-- A concrete manager with one registered temperature sensor (`S-0001`),
the population of the spec's worked scenarios. -/
def tempManager : ManagerState :=
  (register_sensor (initManager "PROP-001") .temperature "Main Hall"
    "Living Room" 0).2

/-- The sensor record `register_sensor` returns for that registration. -/
def tempSensor : Sensor :=
  (register_sensor (initManager "PROP-001") .temperature "Main Hall"
    "Living Room" 0).1

/-- Test helper: run `ingest_reading` and keep the post-state (the pre-state
when ingestion raises). -/
def ingest_state (st : ManagerState) (sensor_id : String) (value : ℚ)
    (timestamp? : Option ℚ) (now : ℚ) : ManagerState :=
  match ingest_reading st sensor_id value timestamp? now with
  | .ok (_, st') => st'
  | .error _ => st

/-- Projection: the reading a successful ingestion returns. -/
def okReading (e : Except String (SensorReading × ManagerState)) :
    Option SensorReading :=
  e.toOption.map Prod.fst

/-- Projection: the severities of all alerts in the post-ingestion state. -/
def okSeverities (e : Except String (SensorReading × ManagerState)) :
    Option (List AlertSeverity) :=
  e.toOption.map (fun p => p.2.alerts.map Alert.severity)

/-- The ingestion of value 40 on the freshly registered temperature sensor. -/
def tempIngest40 : Except String (SensorReading × ManagerState) :=
  ingest_reading tempManager "S-0001" 40 none 0

/-! ### C1 -/

/-- C1 counterexample: ingesting 40 on the temperature sensor (optimal
[20, 26], max threshold 35) yields quality Poor and a triggered alert, but
the generated alert's severity is Info, not Warning as the claim states:
the Warning branch needs `40 > 35 * 1.2 = 42` or `40 < 10 * 0.8 = 8`, and
neither holds. -/
theorem c1_counterexample :
    (okReading tempIngest40).map SensorReading.quality = some "Poor" ∧
    (okReading tempIngest40).map SensorReading.triggered_alert = some true ∧
    okSeverities tempIngest40 = some [AlertSeverity.info] ∧
    okSeverities tempIngest40 ≠ some [AlertSeverity.warning] := by
  decide

/-- C1 (amended): registering a temperature sensor (optimal range [20, 26],
max threshold 35) and ingesting value 40 gives a `SensorReading` with
quality Poor and `triggered_alert = true`, and the alert created by that
ingestion has severity Info. -/
theorem c1_scenario :
    (okReading tempIngest40).map SensorReading.quality = some "Poor" ∧
    (okReading tempIngest40).map SensorReading.triggered_alert = some true ∧
    okSeverities tempIngest40 = some [AlertSeverity.info] := by
  decide

/-! ### C2 -/

/-- C2 counterexample: against a manager with no sensors at all, the history
query for the unknown id `S-0001` does not raise — it returns the value
`[]` — refuting the claim that both ingestion and the history query surface
a hard error for unknown sensor ids. -/
theorem c2_counterexample :
    (initManager "PROP-001").sensors = [] ∧
    get_sensor_history (initManager "PROP-001") "S-0001" 24 0 =
      .ok ([] : List HistoryEntry) :=
  ⟨rfl, rfl⟩

/-- C2 (amended): for an unknown sensor id, ingestion raises
(`Sensor ... not found`), while the history query returns normally with the
empty list (no reading carries an unregistered id in any reachable state;
the hypothesis states that directly). -/
theorem c2_unknown_sensor (st : ManagerState) (sensor_id : String)
    (value : ℚ) (timestamp? : Option ℚ) (now hours : ℚ)
    (hs : st.sensors.find? (fun s => s.sensor_id == sensor_id) = none)
    (hr : ∀ r ∈ st.readings, r.sensor_id ≠ sensor_id) :
    ingest_reading st sensor_id value timestamp? now =
      .error ("Sensor " ++ sensor_id ++ " not found") ∧
    get_sensor_history st sensor_id hours now = .ok ([] : List HistoryEntry) := by
  constructor
  · unfold ingest_reading
    rw [hs]
  · have : st.readings.filter
        (fun r => r.sensor_id == sensor_id && r.timestamp > now - hours) = [] := by
      refine List.filter_eq_nil_iff.mpr ?_
      intro r hrmem
      simp only [Bool.and_eq_true, beq_iff_eq, decide_eq_true_eq, not_and]
      intro h
      exact absurd h (hr r hrmem)
    simp only [get_sensor_history, this, List.map_nil]

/-- Witness for `c2_unknown_sensor` at the empty manager. -/
theorem c2_unknown_sensor_witness :
    ingest_reading (initManager "PROP-001") "S-0001" 40 none 0 =
      .error ("Sensor " ++ "S-0001" ++ " not found") ∧
    get_sensor_history (initManager "PROP-001") "S-0001" 24 0 =
      .ok ([] : List HistoryEntry) :=
  c2_unknown_sensor (initManager "PROP-001") "S-0001" 40 none 0 24
    (by decide) (by intro r hr; cases hr)

/-! ### C3 -/

/-- A log with readings at timestamps 0, 5, 3, 100 on the temperature
sensor, all of value 23, used to exercise the history window at
`now = 24, hours = 24`. -/
def historyState : ManagerState :=
  ingest_state
    (ingest_state
      (ingest_state (ingest_state tempManager "S-0001" 23 (some 0) 0)
        "S-0001" 23 (some 5) 5)
      "S-0001" 23 (some 3) 5)
    "S-0001" 23 (some 100) 5

/-- C3 counterexample: with readings at timestamps 0, 5, 3, 100 and the
window `now = 24, hours = 24`, the code returns the entries at 5, 3, 100 in
log order.  The claim instead predicts exactly the timestamps of
`[now - hours, now] = [0, 24]` in chronological order, i.e. 0, 3, 5: the
boundary reading at 0 is dropped (strict `>` against the cutoff), the
future reading at 100 is included (no upper bound), and the result follows
insertion order, not chronological order. -/
theorem c3_counterexample :
    (get_sensor_history historyState "S-0001" 24 24).toOption =
      some [⟨23, 5, "Good"⟩, ⟨23, 3, "Good"⟩, ⟨23, 100, "Good"⟩] ∧
    (get_sensor_history historyState "S-0001" 24 24).toOption ≠
      some [⟨23, 0, "Good"⟩, ⟨23, 3, "Good"⟩, ⟨23, 5, "Good"⟩] ∧
    historyState.readings.map SensorReading.timestamp = [0, 5, 3, 100] ∧
    ((24 : ℚ) - 24 ≤ 0 ∧ (0 : ℚ) ≤ 24) ∧ ¬ ((100 : ℚ) ≤ 24) := by
  decide

/-- C3 (amended): the history query never raises, and its result contains
exactly the log entries of the requested sensor whose timestamp is strictly
greater than `now - hours` (with no upper bound), projected to
value/timestamp/quality, in log (insertion) order; it is empty when no
entry qualifies. -/
theorem c3_window (st : ManagerState) (sensor_id : String) (hours now : ℚ) :
    ∃ l, get_sensor_history st sensor_id hours now = .ok l ∧
      (∀ e : HistoryEntry, e ∈ l ↔ ∃ r ∈ st.readings,
        r.sensor_id = sensor_id ∧ now - hours < r.timestamp ∧
        e = ⟨r.value, r.timestamp, r.quality⟩) ∧
      l.Sublist (st.readings.map (fun r => ⟨r.value, r.timestamp, r.quality⟩)) ∧
      ((∀ r ∈ st.readings, r.sensor_id = sensor_id →
          r.timestamp ≤ now - hours) → l = []) := by
  refine ⟨_, rfl, ?_, ?_, ?_⟩
  · intro e
    simp only [List.mem_map, List.mem_filter, Bool.and_eq_true, beq_iff_eq,
      decide_eq_true_eq, gt_iff_lt]
    constructor
    · rintro ⟨r, ⟨hmem, hid, hcut⟩, he⟩
      exact ⟨r, hmem, hid, hcut, he.symm⟩
    · rintro ⟨r, hmem, hid, hcut, he⟩
      exact ⟨r, ⟨hmem, hid, hcut⟩, he.symm⟩
  · exact List.Sublist.map _ (List.filter_sublist _)
  · intro hnone
    refine List.map_eq_nil_iff.mpr (List.filter_eq_nil_iff.mpr ?_)
    intro r hmem
    simp only [Bool.and_eq_true, beq_iff_eq, decide_eq_true_eq, gt_iff_lt, not_and]
    intro hid hcut
    exact absurd (hnone r hmem hid) (not_le.mpr hcut)

/-- Witness for `c3_window` at the four-reading log and the 24-hour
window. -/
theorem c3_window_witness :
    ∃ l, get_sensor_history historyState "S-0001" 24 24 = .ok l ∧
      (∀ e : HistoryEntry, e ∈ l ↔ ∃ r ∈ historyState.readings,
        r.sensor_id = "S-0001" ∧ (24 : ℚ) - 24 < r.timestamp ∧
        e = ⟨r.value, r.timestamp, r.quality⟩) ∧
      l.Sublist (historyState.readings.map
        (fun r => ⟨r.value, r.timestamp, r.quality⟩)) ∧
      ((∀ r ∈ historyState.readings, r.sensor_id = "S-0001" →
          r.timestamp ≤ (24 : ℚ) - 24) → l = []) :=
  c3_window historyState "S-0001" 24 24

/-! ### C4 -/

/-- C4: quality classification against the optimal band: a value inside
[optimal_min, optimal_max] is Good, a value below `0.8 * optimal_min` or
above `1.2 * optimal_max` is Poor, and any other value is Fair.  The Poor
clause holds unconditionally (not just outside the Good band) because every
category's configuration satisfies `0 ≤ optimal_min < optimal_max`. -/
theorem c4_quality (t : SensorType) (v : ℚ) :
    ((configOf t).optimal_min ≤ v → v ≤ (configOf t).optimal_max →
      assess_reading_quality v t = "Good") ∧
    (v < (configOf t).optimal_min * 0.8 ∨ v > (configOf t).optimal_max * 1.2 →
      assess_reading_quality v t = "Poor") ∧
    (¬ ((configOf t).optimal_min ≤ v ∧ v ≤ (configOf t).optimal_max) →
      ¬ (v < (configOf t).optimal_min * 0.8 ∨ v > (configOf t).optimal_max * 1.2) →
      assess_reading_quality v t = "Fair") := by
  obtain ⟨-, -, -, hlo, hlt⟩ := configOf_bounds t
  simp only [assess_reading_quality]
  split_ifs with h1 h2
  · refine ⟨fun _ _ => rfl, fun hp => ?_, fun hn _ => ?_⟩
    · rcases hp with hp | hp
      · exact absurd h1.1 (by linarith)
      · exact absurd h1.2 (by linarith)
    · exact absurd h1 hn
  · refine ⟨fun ha hb => ?_, fun _ => rfl, fun _ hn => ?_⟩
    · exact absurd ⟨ha, hb⟩ h1
    · exact absurd h2 hn
  · refine ⟨fun ha hb => ?_, fun hp => ?_, fun _ _ => rfl⟩
    · exact absurd ⟨ha, hb⟩ h1
    · exact absurd hp h2

/-- Witness for `c4_quality`: the temperature band [20, 26] classifies 23
as Good, 40 as Poor (40 > 26 * 1.2), and 28 as Fair. -/
theorem c4_quality_witness :
    assess_reading_quality 23 .temperature = "Good" ∧
    assess_reading_quality 40 .temperature = "Poor" ∧
    assess_reading_quality 28 .temperature = "Fair" :=
  ⟨(c4_quality .temperature 23).1 (by decide) (by decide),
   (c4_quality .temperature 40).2.1 (Or.inr (by decide)),
   (c4_quality .temperature 28).2.2 (by decide) (by decide)⟩

/-! ### C5 -/

/-- `_generate_alert` appends exactly one alert, for the breaching sensor,
with the severity of the inlined classification. -/
theorem generate_alert_alerts (st : ManagerState) (sensor : Sensor)
    (value now : ℚ) :
    ∃ alert, (generate_alert st sensor value now).alerts = st.alerts ++ [alert] ∧
      alert.sensor_id = sensor.sensor_id ∧
      alert.severity = severity_of sensor value :=
  ⟨_, rfl, rfl, rfl⟩

/-- C5: for a registered sensor, ingestion returns a reading whose
`triggered_alert` flag is set iff the value lies outside the sensor's
threshold band `[min, max]`, and an alert is appended during that ingestion
exactly when the flag is set. -/
theorem c5_threshold_flag (st : ManagerState) (sensor : Sensor)
    (sensor_id : String) (value : ℚ) (timestamp? : Option ℚ) (now : ℚ)
    (hs : st.sensors.find? (fun s => s.sensor_id == sensor_id) = some sensor) :
    ∃ reading st',
      ingest_reading st sensor_id value timestamp? now = .ok (reading, st') ∧
      (reading.triggered_alert = true ↔
        value < sensor.thresholds_min ∨ value > sensor.thresholds_max) ∧
      (reading.triggered_alert = true →
        ∃ alert, st'.alerts = st.alerts ++ [alert]) ∧
      (reading.triggered_alert = false → st'.alerts = st.alerts) := by
  unfold ingest_reading
  rw [hs]
  refine ⟨_, _, rfl, ?_, ?_, ?_⟩
  · simp only [check_thresholds, decide_eq_true_eq]
  · intro htrig
    dsimp only at htrig ⊢
    rw [if_pos htrig]
    obtain ⟨alert, ha, -, -⟩ := generate_alert_alerts _ _ value now
    exact ⟨alert, ha⟩
  · intro htrig
    dsimp only at htrig ⊢
    rw [if_neg (by simp [htrig])]

/-- Witness for `c5_threshold_flag`: ingesting 40 on the registered
temperature sensor (band [10, 35]). -/
theorem c5_threshold_flag_witness :
    ∃ reading st',
      ingest_reading tempManager "S-0001" 40 none 0 = .ok (reading, st') ∧
      (reading.triggered_alert = true ↔
        (40 : ℚ) < tempSensor.thresholds_min ∨
        (40 : ℚ) > tempSensor.thresholds_max) ∧
      (reading.triggered_alert = true →
        ∃ alert, st'.alerts = tempManager.alerts ++ [alert]) ∧
      (reading.triggered_alert = false → st'.alerts = tempManager.alerts) :=
  c5_threshold_flag tempManager tempSensor "S-0001" 40 none 0 (by decide)

/-! ### C6 -/

/-- Above the band, only the `max`-side tests of `severity_of` can fire. -/
theorem severity_of_above (sensor : Sensor) (v : ℚ)
    (h0 : 0 ≤ sensor.thresholds_min)
    (h1 : sensor.thresholds_min ≤ sensor.thresholds_max)
    (hv : sensor.thresholds_max < v) :
    severity_of sensor v =
      if v > sensor.thresholds_max * 1.5 then .critical
      else if v > sensor.thresholds_max * 1.2 then .warning
      else .info := by
  have hmin : ¬ (v < sensor.thresholds_min * 0.5) := by push_neg; linarith
  have hmin2 : ¬ (v < sensor.thresholds_min * 0.8) := by push_neg; linarith
  unfold severity_of
  by_cases hc : v > sensor.thresholds_max * 1.5
  · rw [if_pos (Or.inl hc), if_pos hc]
  · by_cases hw : v > sensor.thresholds_max * 1.2
    · rw [if_neg (not_or.mpr ⟨hc, hmin⟩), if_pos (Or.inl hw), if_neg hc, if_pos hw]
    · rw [if_neg (not_or.mpr ⟨hc, hmin⟩), if_neg (not_or.mpr ⟨hw, hmin2⟩),
        if_neg hc, if_neg hw]

/-- Below the band, only the `min`-side tests of `severity_of` can fire. -/
theorem severity_of_below (sensor : Sensor) (v : ℚ)
    (h0 : 0 ≤ sensor.thresholds_min)
    (h1 : sensor.thresholds_min ≤ sensor.thresholds_max)
    (hv : v < sensor.thresholds_min) :
    severity_of sensor v =
      if v < sensor.thresholds_min * 0.5 then .critical
      else if v < sensor.thresholds_min * 0.8 then .warning
      else .info := by
  have hmax : ¬ (v > sensor.thresholds_max * 1.5) := by push_neg; nlinarith
  have hmax2 : ¬ (v > sensor.thresholds_max * 1.2) := by push_neg; nlinarith
  unfold severity_of
  by_cases hc : v < sensor.thresholds_min * 0.5
  · rw [if_pos (Or.inr hc), if_pos hc]
  · by_cases hw : v < sensor.thresholds_min * 0.8
    · rw [if_neg (not_or.mpr ⟨hmax, hc⟩), if_pos (Or.inr hw), if_neg hc, if_pos hw]
    · rw [if_neg (not_or.mpr ⟨hmax, hc⟩), if_neg (not_or.mpr ⟨hmax2, hw⟩),
        if_neg hc, if_neg hw]

/-- C6: for a fixed sensor whose threshold band satisfies
`0 ≤ min ≤ max` (true of every registered sensor), severity is monotone in
how far the value lies outside the band: non-decreasing as the value grows
above `max`, and non-decreasing as the value falls below `min`, in the rank
order Info < Warning < Critical. -/
theorem c6_severity_monotone (sensor : Sensor) (v1 v2 : ℚ)
    (h0 : 0 ≤ sensor.thresholds_min)
    (h1 : sensor.thresholds_min ≤ sensor.thresholds_max) :
    (sensor.thresholds_max < v1 → v1 ≤ v2 →
      (severity_of sensor v1).rank ≤ (severity_of sensor v2).rank) ∧
    (v1 < sensor.thresholds_min → v2 ≤ v1 →
      (severity_of sensor v1).rank ≤ (severity_of sensor v2).rank) := by
  constructor
  · intro hv1 hv12
    rw [severity_of_above sensor v1 h0 h1 hv1,
      severity_of_above sensor v2 h0 h1 (lt_of_lt_of_le hv1 hv12)]
    split_ifs with a b c d <;> simp only [AlertSeverity.rank] <;>
      first | omega | linarith
  · intro hv1 hv12
    rw [severity_of_below sensor v1 h0 h1 hv1,
      severity_of_below sensor v2 h0 h1 (lt_of_le_of_lt hv12 hv1)]
    split_ifs with a b c d <;> simp only [AlertSeverity.rank] <;>
      first | omega | linarith

/-- Witness for `c6_severity_monotone` on the temperature sensor
(band [10, 35]): 36 vs 43 above the band, and 9 vs 4 below it. -/
theorem c6_severity_monotone_witness :
    ((tempSensor.thresholds_max < (36 : ℚ) → (36 : ℚ) ≤ 43 →
      (severity_of tempSensor 36).rank ≤ (severity_of tempSensor 43).rank) ∧
     ((36 : ℚ) < tempSensor.thresholds_min → (43 : ℚ) ≤ 36 →
      (severity_of tempSensor 36).rank ≤ (severity_of tempSensor 43).rank)) ∧
    (((tempSensor.thresholds_max < (9 : ℚ) → (9 : ℚ) ≤ 4 →
      (severity_of tempSensor 9).rank ≤ (severity_of tempSensor 4).rank) ∧
     ((9 : ℚ) < tempSensor.thresholds_min → (4 : ℚ) ≤ 9 →
      (severity_of tempSensor 9).rank ≤ (severity_of tempSensor 4).rank))) :=
  ⟨c6_severity_monotone tempSensor 36 43 (by decide) (by decide),
   c6_severity_monotone tempSensor 9 4 (by decide) (by decide)⟩

/-! ### C7 -/

/-- The acknowledge loop finds no alert exactly when `find?` finds none. -/
theorem ackFirst_none_iff (l : List Alert) (alert_id : String) :
    ackFirst l alert_id = none ↔
      l.find? (fun a => a.alert_id == alert_id) = none := by
  induction l with
  | nil => simp [ackFirst]
  | cons a rest ih =>
    by_cases h : (a.alert_id == alert_id) = true
    · simp [ackFirst, h, List.find?_cons]
    · simp [ackFirst, h, List.find?_cons, ih]

/-- The resolve loop finds no alert exactly when `find?` finds none. -/
theorem resolveFirst_none_iff (l : List Alert) (alert_id : String) (now : ℚ) :
    resolveFirst l alert_id now = none ↔
      l.find? (fun a => a.alert_id == alert_id) = none := by
  induction l with
  | nil => simp [resolveFirst]
  | cons a rest ih =>
    by_cases h : (a.alert_id == alert_id) = true
    · simp [resolveFirst, h, List.find?_cons]
    · simp [resolveFirst, h, List.find?_cons, ih]

/-- After a successful acknowledge pass, the alert with the requested id is
acknowledged, and acknowledging again is a no-op returning the same list. -/
theorem ackFirst_sets (l : List Alert) (alert_id : String) :
    ∀ l', ackFirst l alert_id = some l' →
      (l'.find? (fun a => a.alert_id == alert_id)).map Alert.acknowledged =
        some true ∧
      ackFirst l' alert_id = some l' := by
  induction l with
  | nil => intro l' h; cases h
  | cons a rest ih =>
    intro l' h
    by_cases ha : (a.alert_id == alert_id) = true
    · rw [ackFirst, if_pos ha] at h
      obtain rfl := Option.some_inj.mp h
      constructor
      · simp [List.find?_cons, ha]
      · rw [ackFirst, if_pos (show ((⟨a.alert_id, a.sensor_id, a.severity,
          a.message, a.value, a.threshold, a.timestamp, true, a.resolved,
          a.resolution_time⟩ : Alert).alert_id == alert_id) = true from ha)]
    · rw [ackFirst, if_neg ha] at h
      obtain ⟨rest', hrest, rfl⟩ := Option.map_eq_some'.mp h
      obtain ⟨hfind, hagain⟩ := ih rest' hrest
      constructor
      · simpa [List.find?_cons, ha] using hfind
      · rw [ackFirst, if_neg ha, hagain]
        rfl

/-- After a successful resolve pass, the alert with the requested id is
resolved and carries `resolution_time = now`. -/
theorem resolveFirst_sets (l : List Alert) (alert_id : String) (now : ℚ) :
    ∀ l', resolveFirst l alert_id now = some l' →
      (l'.find? (fun a => a.alert_id == alert_id)).map Alert.resolved =
        some true ∧
      (l'.find? (fun a => a.alert_id == alert_id)).map Alert.resolution_time =
        some (some now) := by
  induction l with
  | nil => intro l' h; cases h
  | cons a rest ih =>
    intro l' h
    by_cases ha : (a.alert_id == alert_id) = true
    · rw [resolveFirst, if_pos ha] at h
      obtain rfl := Option.some_inj.mp h
      constructor
      · simp [List.find?_cons, ha]
      · simp [List.find?_cons, ha]
    · rw [resolveFirst, if_neg ha] at h
      obtain ⟨rest', hrest, rfl⟩ := Option.map_eq_some'.mp h
      obtain ⟨h1, h2⟩ := ih rest' hrest
      constructor
      · simpa [List.find?_cons, ha] using h1
      · simpa [List.find?_cons, ha] using h2

/-- C7: alert lifecycle.  For a known alert id, acknowledge returns true
and marks the alert acknowledged; a second acknowledge returns true again
and leaves the state unchanged; resolve succeeds both on the acknowledged
state and directly on the original state, setting `resolved = true` and a
resolution time.  For an unknown alert id, both operations return false and
leave the state untouched. -/
theorem c7_alert_lifecycle (st : ManagerState) (alert_id : String) (now : ℚ) :
    ((st.alerts.find? (fun a => a.alert_id == alert_id)).isSome = true →
      (acknowledge_alert st alert_id).1 = true ∧
      (((acknowledge_alert st alert_id).2.alerts.find?
          (fun a => a.alert_id == alert_id)).map Alert.acknowledged =
        some true) ∧
      acknowledge_alert (acknowledge_alert st alert_id).2 alert_id =
        (true, (acknowledge_alert st alert_id).2) ∧
      (resolve_alert (acknowledge_alert st alert_id).2 alert_id now).1 = true ∧
      (resolve_alert st alert_id now).1 = true ∧
      (((resolve_alert st alert_id now).2.alerts.find?
          (fun a => a.alert_id == alert_id)).map Alert.resolved = some true) ∧
      (((resolve_alert st alert_id now).2.alerts.find?
          (fun a => a.alert_id == alert_id)).map Alert.resolution_time =
        some (some now))) ∧
    ((st.alerts.find? (fun a => a.alert_id == alert_id)) = none →
      acknowledge_alert st alert_id = (false, st) ∧
      resolve_alert st alert_id now = (false, st)) := by
  constructor
  · intro h
    have hne : st.alerts.find? (fun a => a.alert_id == alert_id) ≠ none := by
      intro hn; rw [hn] at h; cases h
    have hack : ackFirst st.alerts alert_id ≠ none := by
      intro hn; exact hne ((ackFirst_none_iff _ _).mp hn)
    obtain ⟨l', heq⟩ := Option.ne_none_iff_exists'.mp hack
    have hres : resolveFirst st.alerts alert_id now ≠ none := by
      intro hn; exact hne ((resolveFirst_none_iff _ _ _).mp hn)
    obtain ⟨l'', heq'⟩ := Option.ne_none_iff_exists'.mp hres
    obtain ⟨hfind, hagain⟩ := ackFirst_sets st.alerts alert_id l' heq
    obtain ⟨hrv, hrt⟩ := resolveFirst_sets st.alerts alert_id now l'' heq'
    have hackst : acknowledge_alert st alert_id = (true, { st with alerts := l' }) := by
      unfold acknowledge_alert; rw [heq]
    have hresst : resolve_alert st alert_id now = (true, { st with alerts := l'' }) := by
      unfold resolve_alert; rw [heq']
    refine ⟨by rw [hackst], by rw [hackst]; exact hfind, ?_, ?_, by rw [hresst],
      by rw [hresst]; exact hrv, by rw [hresst]; exact hrt⟩
    · rw [hackst]
      unfold acknowledge_alert
      rw [hagain]
    · rw [hackst]
      have : resolveFirst l' alert_id now ≠ none := by
        intro hn
        have := (resolveFirst_none_iff _ _ _).mp hn
        rw [this] at hfind
        cases hfind
      obtain ⟨l3, heq3⟩ := Option.ne_none_iff_exists'.mp this
      unfold resolve_alert
      rw [heq3]
  · intro h
    have hack : ackFirst st.alerts alert_id = none := (ackFirst_none_iff _ _).mpr h
    have hres : resolveFirst st.alerts alert_id now = none :=
      (resolveFirst_none_iff _ _ _).mpr h
    constructor
    · unfold acknowledge_alert; rw [hack]
    · unfold resolve_alert; rw [hres]

/-- A concrete manager holding one unacknowledged, unresolved alert. -/
def alertManager : ManagerState :=
  { initManager "PROP-001" with
    alerts := [⟨"A-000001", "S-0001", .info,
      "Temperature in Living Room: 40°C (Threshold: 35)", 40, 35, 0,
      false, false, none⟩]
    alert_counter := 1 }

/-- Witness for `c7_alert_lifecycle`: the known id `A-000001` and the
unknown id `A-000099` on `alertManager`. -/
theorem c7_alert_lifecycle_witness :
    ((acknowledge_alert alertManager "A-000001").1 = true ∧
      (((acknowledge_alert alertManager "A-000001").2.alerts.find?
          (fun a => a.alert_id == "A-000001")).map Alert.acknowledged =
        some true) ∧
      acknowledge_alert (acknowledge_alert alertManager "A-000001").2 "A-000001" =
        (true, (acknowledge_alert alertManager "A-000001").2) ∧
      (resolve_alert (acknowledge_alert alertManager "A-000001").2 "A-000001" 7).1 =
        true ∧
      (resolve_alert alertManager "A-000001" 7).1 = true ∧
      (((resolve_alert alertManager "A-000001" 7).2.alerts.find?
          (fun a => a.alert_id == "A-000001")).map Alert.resolved = some true) ∧
      (((resolve_alert alertManager "A-000001" 7).2.alerts.find?
          (fun a => a.alert_id == "A-000001")).map Alert.resolution_time =
        some (some 7))) ∧
    (acknowledge_alert alertManager "A-000099" = (false, alertManager) ∧
      resolve_alert alertManager "A-000099" 7 = (false, alertManager)) :=
  ⟨(c7_alert_lifecycle alertManager "A-000001" 7).1 (by decide),
   (c7_alert_lifecycle alertManager "A-000099" 7).2 (by decide)⟩

/-! ### C8 -/

/-- C8: listener isolation.  With any list of registered listeners —
including ones that fail on every invocation — ingesting a breaching value
still returns the reading, appends it to the log, and appends the alert;
moreover the returned reading and the resulting log and alert list do not
depend on the listener list at all. -/
theorem c8_listener_isolation (st : ManagerState)
    (cbs : List (Alert → Except String Unit)) (sensor : Sensor)
    (sensor_id : String) (value : ℚ) (timestamp? : Option ℚ) (now : ℚ)
    (hs : st.sensors.find? (fun s => s.sensor_id == sensor_id) = some sensor)
    (hb : check_thresholds sensor value = true) :
    ∃ reading st',
      ingest_reading { st with alert_callbacks := cbs } sensor_id value
        timestamp? now = .ok (reading, st') ∧
      st'.readings = st.readings ++ [reading] ∧
      (∃ alert, st'.alerts = st.alerts ++ [alert]) ∧
      (∀ cbs₂, ∃ st₂,
        ingest_reading { st with alert_callbacks := cbs₂ } sensor_id value
          timestamp? now = .ok (reading, st₂) ∧
        st₂.readings = st'.readings ∧ st₂.alerts = st'.alerts) := by
  unfold ingest_reading
  rw [show ({ st with alert_callbacks := cbs } : ManagerState).sensors
      = st.sensors from rfl, hs]
  dsimp only
  rw [if_pos hb]
  refine ⟨_, _, rfl, rfl, ⟨_, rfl⟩, ?_⟩
  intro cbs₂
  rw [show ({ st with alert_callbacks := cbs₂ } : ManagerState).sensors
      = st.sensors from rfl, hs]
  dsimp only
  rw [if_pos hb]
  exact ⟨_, rfl, rfl, rfl⟩

/-- A listener that fails on every invocation. -/
def boomListener : Alert → Except String Unit := fun _ => .error "boom"

/-- Witness for `c8_listener_isolation`: the always-failing listener, the
registered temperature sensor, and the breaching value 40. -/
theorem c8_listener_isolation_witness :
    ∃ reading st',
      ingest_reading { tempManager with alert_callbacks := [boomListener] }
        "S-0001" 40 none 0 = .ok (reading, st') ∧
      st'.readings = tempManager.readings ++ [reading] ∧
      (∃ alert, st'.alerts = tempManager.alerts ++ [alert]) ∧
      (∀ cbs₂, ∃ st₂,
        ingest_reading { tempManager with alert_callbacks := cbs₂ }
          "S-0001" 40 none 0 = .ok (reading, st₂) ∧
        st₂.readings = st'.readings ∧ st₂.alerts = st'.alerts) :=
  c8_listener_isolation tempManager [boomListener] tempSensor "S-0001" 40
    none 0 (by decide) (by decide)

/-! ### C9 -/

/-- The state of the comfort scenario: the registered temperature sensor
after ingesting the optimal midpoint 23 °C. -/
def comfortState : ManagerState := ingest_state tempManager "S-0001" 23 none 0

/-- C9: for a sensor whose last value lies in its optimal band, the
per-sensor comfort score is `100 - 20 * |v - mid| / (optimal_max - mid)`
(equivalently that quantity clamped at 0, since it is at least 80), and for
the one-temperature-sensor population at the midpoint 23 °C the per-sensor
score is 100, the overall score is 100, and the category is Excellent. -/
theorem c9_comfort_score (sensor : Sensor)
    (hlo : (configOf sensor.sensor_type).optimal_min ≤ sensor.last_reading)
    (hhi : sensor.last_reading ≤ (configOf sensor.sensor_type).optimal_max) :
    calculate_sensor_score sensor = some (max 0 (100 -
      20 * |sensor.last_reading - ((configOf sensor.sensor_type).optimal_min +
          (configOf sensor.sensor_type).optimal_max) / 2| /
        ((configOf sensor.sensor_type).optimal_max -
          ((configOf sensor.sensor_type).optimal_min +
           (configOf sensor.sensor_type).optimal_max) / 2))) ∧
    (calculate_comfort_score comfortState).map ComfortResult.overall_score =
      some 100 ∧
    (calculate_comfort_score comfortState).map ComfortResult.category =
      some "Excellent" ∧
    (calculate_comfort_score comfortState).map ComfortResult.component_scores =
      some [(.temperature, 100)] := by
  refine ⟨?_, by decide, by decide, by decide⟩
  obtain ⟨-, -, -, hl0, hlt⟩ := configOf_bounds sensor.sensor_type
  set lo := (configOf sensor.sensor_type).optimal_min with hlo_def
  set hi := (configOf sensor.sensor_type).optimal_max with hhi_def
  set v := sensor.last_reading with hv_def
  have hmidpos : 0 < hi - (lo + hi) / 2 := by linarith
  simp only [calculate_sensor_score]
  rw [← hlo_def, ← hhi_def, ← hv_def, if_pos ⟨hlo, hhi⟩, if_neg (by linarith)]
  have habs : |v - (lo + hi) / 2| ≤ hi - (lo + hi) / 2 := by
    rw [abs_le]
    constructor <;> linarith
  have hd1 : |v - (lo + hi) / 2| / (hi - (lo + hi) / 2) ≤ 1 :=
    (div_le_one hmidpos).mpr habs
  rw [max_eq_right (by rw [mul_div_assoc]; linarith)]
  ring_nf

/-- The temperature sensor at its optimal midpoint. -/
def midSensor : Sensor := { tempSensor with last_reading := 23 }

/-- Witness for `c9_comfort_score` at the midpoint sensor. -/
theorem c9_comfort_score_witness :
    calculate_sensor_score midSensor = some (max 0 (100 -
      20 * |midSensor.last_reading -
          ((configOf midSensor.sensor_type).optimal_min +
           (configOf midSensor.sensor_type).optimal_max) / 2| /
        ((configOf midSensor.sensor_type).optimal_max -
          ((configOf midSensor.sensor_type).optimal_min +
           (configOf midSensor.sensor_type).optimal_max) / 2))) ∧
    (calculate_comfort_score comfortState).map ComfortResult.overall_score =
      some 100 ∧
    (calculate_comfort_score comfortState).map ComfortResult.category =
      some "Excellent" ∧
    (calculate_comfort_score comfortState).map ComfortResult.component_scores =
      some [(.temperature, 100)] :=
  c9_comfort_score midSensor (by decide) (by decide)

/-! ### C10 -/

/-- A population of one electricity sensor, after ingesting the negative
value -5. -/
def elecState : ManagerState :=
  ingest_state
    ((register_sensor (initManager "PROP-002") .electricity "Main" "Kitchen" 0).2)
    "S-0001" (-5) none 0

/-- C10 counterexample: electricity is a category with `optimal_min = 0`;
its sensor in `elecState` has last value -5, and the per-sensor score
computation raises (is `none`) — yet `calculate_comfort_score` succeeds,
because electricity is not among the weighted categories and is therefore
never scored.  This refutes the claim that the comfort score fails for
every such sensor. -/
theorem c10_counterexample :
    (configOf .electricity).optimal_min = 0 ∧
    elecState.sensors.map Sensor.last_reading = [-5] ∧
    elecState.sensors.map calculate_sensor_score = [none] ∧
    (calculate_comfort_score elecState).isSome = true := by
  decide

/-- `collect_scores` fails whenever some sensor of a weighted category has
a failing per-sensor score. -/
theorem collect_scores_none (l : List Sensor) (sensor : Sensor)
    (hmem : sensor ∈ l)
    (hw : (weights.lookup sensor.sensor_type).isSome = true)
    (hnone : calculate_sensor_score sensor = none) :
    ∀ acc, collect_scores l acc = none := by
  induction l with
  | nil => cases hmem
  | cons a rest ih =>
    intro acc
    rcases List.mem_cons.mp hmem with rfl | hmem'
    · simp [collect_scores, hw, hnone]
    · by_cases hwa : (weights.lookup a.sensor_type).isSome = true
      · cases hsc : calculate_sensor_score a with
        | none => simp [collect_scores, hwa, hsc]
        | some sc =>
          simp only [collect_scores, hwa, if_true, hsc]
          exact ih hmem' _
      · simp only [collect_scores, hwa, if_false, Bool.false_eq_true]
        exact ih hmem' _

/-- `collect_scores` succeeds whenever every sensor of a weighted category
has a succeeding per-sensor score. -/
theorem collect_scores_isSome (l : List Sensor)
    (h : ∀ s ∈ l, (weights.lookup s.sensor_type).isSome = true →
      (calculate_sensor_score s).isSome = true) :
    ∀ acc, (collect_scores l acc).isSome = true := by
  induction l with
  | nil => intro acc; rfl
  | cons a rest ih =>
    intro acc
    by_cases hwa : (weights.lookup a.sensor_type).isSome = true
    · cases hsc : calculate_sensor_score a with
      | none =>
        have := h a (List.mem_cons_self a rest) hwa
        rw [hsc] at this
        cases this
      | some sc =>
        simp only [collect_scores, hwa, if_true, hsc]
        exact ih (fun s hs hw => h s (List.mem_cons_of_mem a hs) hw) _
    · simp only [collect_scores, hwa, if_false, Bool.false_eq_true]
      exact ih (fun s hs hw => h s (List.mem_cons_of_mem a hs) hw) _

/-- The per-sensor score succeeds when the last value is non-negative or
the category's `optimal_min` is positive. -/
theorem calculate_sensor_score_isSome (s : Sensor)
    (h : 0 ≤ s.last_reading ∨ 0 < (configOf s.sensor_type).optimal_min) :
    (calculate_sensor_score s).isSome = true := by
  obtain ⟨-, -, -, hl0, hlt⟩ := configOf_bounds s.sensor_type
  simp only [calculate_sensor_score]
  split_ifs with h1 h2 h3 h4 h5 <;> try rfl
  · exfalso; linarith
  · exfalso
    rcases h with h | h <;> linarith
  · exfalso; linarith

/-- C10 (amended): a sensor whose category has `optimal_min = 0` and whose
last value is negative makes the per-sensor score computation divide by
zero (raise); `calculate_comfort_score` fails when such a sensor's category
is one of the weighted ones; and under the precondition that every sensor
of a weighted category has a non-negative last value or a positive
`optimal_min`, the comfort score always returns. -/
theorem c10_score_partiality (sensor : Sensor) (st : ManagerState)
    (hz : (configOf sensor.sensor_type).optimal_min = 0)
    (hneg : sensor.last_reading < 0) :
    calculate_sensor_score sensor = none ∧
    ((weights.lookup sensor.sensor_type).isSome = true → sensor ∈ st.sensors →
      calculate_comfort_score st = none) ∧
    (∀ st₂ : ManagerState,
      (∀ s ∈ st₂.sensors, (weights.lookup s.sensor_type).isSome = true →
        0 ≤ s.last_reading ∨ 0 < (configOf s.sensor_type).optimal_min) →
      (calculate_comfort_score st₂).isSome = true) := by
  have hscore : calculate_sensor_score sensor = none := by
    simp only [calculate_sensor_score]
    rw [if_neg (fun hc => absurd (le_trans (hz ▸ hc.1 : (0:ℚ) ≤ _) le_rfl)
      (not_le.mpr hneg)), if_pos (hz ▸ hneg), if_pos hz]
  refine ⟨hscore, ?_, ?_⟩
  · intro hw hmem
    unfold calculate_comfort_score
    rw [collect_scores_none st.sensors sensor hmem hw hscore []]
  · intro st₂ h
    have hall : ∀ s ∈ st₂.sensors,
        (weights.lookup s.sensor_type).isSome = true →
        (calculate_sensor_score s).isSome = true :=
      fun s hs hw => calculate_sensor_score_isSome s (h s hs hw)
    obtain ⟨scores, hsc⟩ :=
      Option.isSome_iff_exists.mp (collect_scores_isSome st₂.sensors hall [])
    unfold calculate_comfort_score
    rw [hsc]
    rfl

/-- A population of one air-quality sensor (weighted category,
`optimal_min = 0`), after ingesting the negative value -5. -/
def aqState : ManagerState :=
  ingest_state
    ((register_sensor (initManager "PROP-003") .airQuality "Main" "Hall" 0).2)
    "S-0001" (-5) none 0

/-- The stored air-quality sensor of `aqState`. -/
def aqSensorNeg : Sensor :=
  { (register_sensor (initManager "PROP-003") .airQuality "Main" "Hall" 0).1
    with last_reading := -5 }

/-- Witness for `c10_score_partiality`: the negative air-quality sensor
makes the comfort score fail, while the healthy temperature population
succeeds. -/
theorem c10_score_partiality_witness :
    calculate_sensor_score aqSensorNeg = none ∧
    calculate_comfort_score aqState = none ∧
    (calculate_comfort_score comfortState).isSome = true := by
  obtain ⟨h1, h2, h3⟩ :=
    c10_score_partiality aqSensorNeg aqState (by decide) (by decide)
  exact ⟨h1, h2 (by decide) (by decide), h3 comfortState (by decide)⟩

end IoT
